import Mathlib

/-!
Verification development for the IceCore guest-runtime and capability layer.

The Rust sources embedded here (shallowly, as pure Lean functions over
explicit state) are:
  * `src/lssa/ns/tcp.rs`   — the `tcp` capability namespace (`TcpImpl`);
  * `src/storage/backend/redis.rs` — the Redis KV backend future pipeline;
  * `src/config.rs`        — `AppMemoryConfig` and its `Default`;
  * `src/glue/response.rs` — `Response` construction and materialization;
  * `src/glue/request.rs`  — request field lookups.

Rust panics (`unwrap`, explicit `panic!`, out-of-bounds slice indexing) are
modelled as the `Except.error` branch of an `Except String` result, or as the
`Effect.fatal` constructor for panics occurring inside spawned completion
handlers.  Machine integers are modelled as `Nat`/`Int`; byte buffers as
`List Nat`.
-/

namespace IceCore

/-! ## Slab resource tables

The `slab::Slab` collaborator used for the stream and buffer tables.  A slab
is modelled as a list of slots, each vacant (`none`) or occupied (`some v`).
`slabInsert` places the value in the first vacant slot (an abstraction of the
crate's free-list: the claims depend only on the returned key addressing the
inserted value, never on the reuse order).  Indexing a vacant slot and
`remove` of a vacant slot panic in the crate, hence the `Except`/`Option`
results below. -/

abbrev Slab (α : Type) : Type := List (Option α)

/-- `slab[i]` as a total lookup: `none` when out of range or vacant. -/
def slabGet {α : Type} (l : Slab α) (i : Nat) : Option α :=
  (List.get? l i).bind id

/-- `slab.insert(v)`: returns the updated slab and the key of the slot used. -/
def slabInsert {α : Type} : Slab α → α → Slab α × Nat
  | [], v => ([some v], 0)
  | none :: rest, v => (some v :: rest, 0)
  | some x :: rest, v =>
    let (l, i) := slabInsert rest v
    (some x :: l, i + 1)

/-- `slab.remove(i)`: removes and returns the value; panics on a vacant key. -/
def slabRemove {α : Type} (l : Slab α) (i : Nat) : Except String (α × Slab α) :=
  match slabGet l i with
  | some v => .ok (v, l.set i none)
  | none => .error "invalid key"

/-! ## TCP capability state (`TcpImpl`, src/lssa/ns/tcp.rs)

`streams: Slab<Option<TcpStream>>` — an occupied slot holds `some conn`
normally and `none` while the stream is lent out to an in-flight read or
write.  `buffers: Slab<Box<[u8]>>` holds read results awaiting pickup. -/

/-- An open TCP stream, abstract: only its identity matters to the claims. -/
structure TcpStream where
  sock : Nat
deriving DecidableEq

structure TcpState where
  streams : Slab (Option TcpStream)
  buffers : Slab (List Nat)
deriving DecidableEq

/-- What a spawned completion handler does to the guest when it runs:
re-enter the guest via `Application::invoke2 (cb_target, cb_data, result)`,
panic (the model of a Rust `unwrap`/indexing panic inside the handler), or
drop silently without touching the guest.  The source never produces
`dropped`; the constructor exists so the specification's claimed behaviour
is expressible. -/
inductive Effect where
  | invoke (target data result : Int)
  | fatal (msg : String)
  | dropped
deriving DecidableEq

/-- Whether the effect re-enters the guest. -/
def Effect.isInvoke : Effect → Bool
  | .invoke _ _ _ => true
  | _ => false

/-- Whether the effect is a panic of the completion handler. -/
def Effect.isFatal : Effect → Bool
  | .fatal _ => true
  | _ => false

/-- The permission variants consulted by the capabilities in scope.
Modelled from the spec: `AppPermission` and `Application::check_permission`
live outside the provided sources; per §4.2/§6 a capability use is authorized
iff the exact variant is a member of the configured set. -/
inductive AppPermission where
  | tcpListen (addr : String)
  | tcpConnect (addr : String)
  | kvNamespace (ns : String)
deriving DecidableEq

/-- Modelled from the spec: exact-match membership test of
`Application::check_permission` (not in the provided sources). -/
def checkPermission (perms : List AppPermission) (p : AppPermission) : Bool :=
  perms.contains p

/-- External collaborators used by `listen`: `str::parse::<SocketAddr>` and
`tokio::net::TcpListener::bind`.  Both are out-of-scope library calls whose
success or failure is an input to the embedding; a socket address is
abstract. -/
structure NetEnv where
  parseAddr : String → Option Nat
  bindOk : Nat → Bool

/-- The accept loop spawned by a successful `listen`: for every accepted
connection it fires the callback descriptor recorded here. -/
structure PendingAccept where
  cb_target : Int
  cb_data : Int
deriving DecidableEq

/-- Result of a synchronous capability call that may spawn a background
task: a returned integer together with the spawned task (if any), or a
panic escaping the call. -/
inductive SyncResult (π : Type) where
  | ret (v : Int) (spawned : Option π)
  | fatal (msg : String)
deriving DecidableEq

/-- `TcpImpl::listen` (tcp.rs lines 44–80): check `TcpListen(addr)`
permission (denied ⇒ return `-1`), then `addr.parse().unwrap()` (panic on a
malformed address), then `TcpListener::bind(..).unwrap()` (panic on bind
failure), then spawn the accept loop and return `0`. -/
def tcpListen (env : NetEnv) (perms : List AppPermission) (addr : String)
    (cb_target cb_data : Int) : SyncResult PendingAccept :=
  if checkPermission perms (.tcpListen addr) then
    match env.parseAddr addr with
    | none => .fatal "addr parse failed"
    | some sa =>
      if env.bindOk sa then
        .ret 0 (some ⟨cb_target, cb_data⟩)
      else
        .fatal "bind failed"
  else
    .ret (-1) none

/-- One turn of the accept loop (tcp.rs lines 65–73), run when a connection
`s` is accepted: insert the stream into the slab, then
`app_weak.upgrade().unwrap().invoke2(cb_target, cb_data, stream_id)`.
`appAlive` is whether the weak upgrade succeeds; when it fails the `unwrap`
panics. -/
def tcpAcceptComplete (st : TcpState) (appAlive : Bool) (p : PendingAccept)
    (s : TcpStream) : TcpState × Effect :=
  let (streams', stream_id) := slabInsert st.streams (some s)
  (⟨streams', st.buffers⟩,
   if appAlive then .invoke p.cb_target p.cb_data (Int.ofNat stream_id)
   else .fatal "unwrap on dead weak app reference")

/-- `TcpImpl::destroy` (tcp.rs lines 82–86): `streams.remove(stream_id)`,
panicking on a vacant key. -/
def tcpDestroy (st : TcpState) (stream_id : Nat) : Except String TcpState :=
  match slabRemove st.streams stream_id with
  | .ok (_, streams') => .ok ⟨streams', st.buffers⟩
  | .error e => .error e

/-- `TcpImpl::release_buffer` (tcp.rs lines 88–92). -/
def tcpReleaseBuffer (st : TcpState) (buffer_id : Nat) : Except String TcpState :=
  match slabRemove st.buffers buffer_id with
  | .ok (_, buffers') => .ok ⟨st.streams, buffers'⟩
  | .error e => .error e

/-! ## Guest linear memory (memory bridge) -/

/-- Write `src` into `mem` starting at `ptr`; `none` models the slice-index
panic when the range `ptr .. ptr + src.length` exceeds the memory. -/
def writeBytes (mem : List Nat) (ptr : Nat) (src : List Nat) : Option (List Nat) :=
  if ptr + src.length ≤ mem.length then
    some (mem.take ptr ++ src ++ mem.drop (ptr + src.length))
  else
    none

/-- Read `len` bytes at `ptr`.  Modelled from the spec: `extract_bytes` is
the memory-bridge helper (§4.3, not in the provided sources); an
out-of-range access is a fatal guest error. -/
def readBytes (mem : List Nat) (ptr len : Nat) : Option (List Nat) :=
  if ptr + len ≤ mem.length then
    some ((mem.drop ptr).take len)
  else
    none

/-- `TcpImpl::take_buffer` (tcp.rs lines 94–109): `buffers.remove(buffer_id)`
(panic on vacant key), then `panic!` if `buf.len() > max_len`, then copy the
bytes into guest memory at `target_ptr` (slice indexing panics when out of
range) and return the byte count. -/
def takeBuffer (st : TcpState) (mem : List Nat)
    (buffer_id target_ptr max_len : Nat) :
    Except String (TcpState × List Nat × Int) :=
  match slabRemove st.buffers buffer_id with
  | .error e => .error e
  | .ok (buf, buffers') =>
    if buf.length > max_len then
      .error "take_buffer: buf.len() > max_len"
    else
      match writeBytes mem target_ptr buf with
      | none => .error "slice index out of range"
      | some mem' => .ok (⟨st.streams, buffers'⟩, mem', Int.ofNat buf.length)

/-! ## TCP read / write -/

/-- The in-flight state of a `read`: the stream lent out of its slot, the
requested length, the slot index to re-install into, and the callback
descriptor. -/
structure PendingRead where
  conn : TcpStream
  read_len : Nat
  stream_id : Nat
  cb_target : Int
  cb_data : Int
deriving DecidableEq

/-- The in-flight state of a `write`: the stream lent out of its slot, the
bytes extracted from guest memory, the slot index, and the callback
descriptor. -/
structure PendingWrite where
  conn : TcpStream
  data : List Nat
  stream_id : Nat
  cb_target : Int
  cb_data : Int
deriving DecidableEq

/-- `TcpImpl::read` (tcp.rs lines 111–147): `streams[stream_id]` (panic on a
vacant key), `.take().unwrap()` (panic if the slot holds `None`, i.e. the
stream is already lent out), leaving `None` in the slot; spawn the read
future and return `0`. -/
def tcpRead (st : TcpState) (stream_id read_len : Nat) (cb_target cb_data : Int) :
    Except String (TcpState × Int × PendingRead) :=
  match slabGet st.streams stream_id with
  | none => .error "invalid key"
  | some slot =>
    match slot with
    | none => .error "unwrap on None"
    | some conn =>
      .ok (⟨st.streams.set stream_id (some none), st.buffers⟩,
           0,
           ⟨conn, read_len, stream_id, cb_target, cb_data⟩)

/-- Completion of the spawned read future (tcp.rs lines 124–144).  On
success `(stream, data)`: re-install the stream (`streams[stream_id] = ..`,
an indexing panic if the slot was vacated meanwhile), insert the data as a
buffer slot, then `upgrade().unwrap().invoke2(cb, buffer_id)` — the
`unwrap` panics when the app is gone.  On error: log, then
`upgrade().unwrap().invoke2(cb, -1)`. -/
def tcpReadComplete (st : TcpState) (p : PendingRead) (appAlive : Bool)
    (result : Except String (TcpStream × List Nat)) : TcpState × Effect :=
  match result with
  | .ok (stream, data) =>
    match slabGet st.streams p.stream_id with
    | none => (st, .fatal "invalid key")
    | some _ =>
      let streams' := st.streams.set p.stream_id (some (some stream))
      let (buffers', buffer_id) := slabInsert st.buffers data
      (⟨streams', buffers'⟩,
       if appAlive then .invoke p.cb_target p.cb_data (Int.ofNat buffer_id)
       else .fatal "unwrap on dead weak app reference")
  | .error _ =>
    (st,
     if appAlive then .invoke p.cb_target p.cb_data (-1)
     else .fatal "unwrap on dead weak app reference")

/-- `TcpImpl::write` (tcp.rs lines 149–184): extract the bytes from guest
memory (`extract_bytes`, fatal when out of range), take the stream out of
its slot exactly as `read` does, spawn `tokio::io::write_all`, return `0`. -/
def tcpWrite (st : TcpState) (mem : List Nat) (stream_id buf_ptr buf_len : Nat)
    (cb_target cb_data : Int) :
    Except String (TcpState × Int × PendingWrite) :=
  match readBytes mem buf_ptr buf_len with
  | none => .error "memory access out of bounds"
  | some data =>
    match slabGet st.streams stream_id with
    | none => .error "invalid key"
    | some slot =>
      match slot with
      | none => .error "unwrap on None"
      | some conn =>
        .ok (⟨st.streams.set stream_id (some none), st.buffers⟩,
             0,
             ⟨conn, data, stream_id, cb_target, cb_data⟩)

/-- Completion of the spawned write future (tcp.rs lines 163–181).  On
success: re-install the stream (indexing panic if the slot was vacated),
then `upgrade().unwrap().invoke2(cb, data_len)`.  On error: log, then
`upgrade().unwrap().invoke2(cb, -1)`. -/
def tcpWriteComplete (st : TcpState) (p : PendingWrite) (appAlive : Bool)
    (result : Except String TcpStream) : TcpState × Effect :=
  match result with
  | .ok stream =>
    match slabGet st.streams p.stream_id with
    | none => (st, .fatal "invalid key")
    | some _ =>
      (⟨st.streams.set p.stream_id (some (some stream)), st.buffers⟩,
       if appAlive then .invoke p.cb_target p.cb_data (Int.ofNat p.data.length)
       else .fatal "unwrap on dead weak app reference")
  | .error _ =>
    (st,
     if appAlive then .invoke p.cb_target p.cb_data (-1)
     else .fatal "unwrap on dead weak app reference")

/-! ## Redis KV backend (`src/storage/backend/redis.rs`)

`Op::run` sends the command to the worker over an mpsc channel and returns
the oneshot receiver side, with the channel-cancellation error mapped to a
`String`.  The worker runs the redis command and sends back an `OpResult`:
`Value v` on redis success (`v = none`/`some` for the unit commands /
lookups), `Error e` on a redis error.  The `KVStorage`/`HashMapExt` impls
then post-process the delivered result.  The embedding takes the delivered
reply as input: `Except.error ce` is the oneshot channel being dropped
before a send (`rx.map_err`), `Except.ok r` is the worker's `OpResult`. -/

inductive OpResult where
  | error (e : String)
  | value (v : Option String)
deriving DecidableEq

inductive StorageError where
  | other (e : String)
deriving DecidableEq

/-- What one redis command execution produces in the worker (redis.rs
lines 106–144): each arm wraps the redis call's success value in
`OpResult::Value` and its error description in `OpResult::Error`.  The redis
call itself is the external collaborator, so its outcome is the input. -/
def workerExec (cmdResult : Except String (Option String)) : OpResult :=
  match cmdResult with
  | .ok v => .value v
  | .error e => .error e

/-- `KVStorage::get` for `RedisStorage` (redis.rs lines 161–171):
`Op::run(..).map(|v| if let OpResult::Value(v) = v { v } else { None })
 .map_err(StorageError::Other)`. -/
def redisGet (reply : Except String OpResult) :
    Except StorageError (Option String) :=
  match reply with
  | .error ce => .error (.other ce)
  | .ok r =>
    .ok (match r with
         | .value v => v
         | .error _ => none)

/-- `KVStorage::set` for `RedisStorage` (redis.rs lines 173–177):
`Op::run(..).map(|_| ()).map_err(StorageError::Other)`. -/
def redisSet (reply : Except String OpResult) : Except StorageError Unit :=
  match reply with
  | .error ce => .error (.other ce)
  | .ok _ => .ok ()

/-- `KVStorage::remove` for `RedisStorage` (redis.rs lines 179–183): same
shape as `set`. -/
def redisRemove (reply : Except String OpResult) : Except StorageError Unit :=
  match reply with
  | .error ce => .error (.other ce)
  | .ok _ => .ok ()

/-- `HashMapExt::get` for `RedisHashMapExt` (redis.rs lines 205–215): same
post-processing as top-level `get`. -/
def redisHget (reply : Except String OpResult) :
    Except StorageError (Option String) :=
  match reply with
  | .error ce => .error (.other ce)
  | .ok r =>
    .ok (match r with
         | .value v => v
         | .error _ => none)

/-- `HashMapExt::set` for `RedisHashMapExt` (redis.rs lines 217–221). -/
def redisHset (reply : Except String OpResult) : Except StorageError Unit :=
  match reply with
  | .error ce => .error (.other ce)
  | .ok _ => .ok ()

/-- `HashMapExt::remove` for `RedisHashMapExt` (redis.rs lines 223–227). -/
def redisHremove (reply : Except String OpResult) : Except StorageError Unit :=
  match reply with
  | .error ce => .error (.other ce)
  | .ok _ => .ok ()

/-! ## Configuration (`src/config.rs`) -/

structure AppMemoryConfig where
  min : Nat
  max : Nat
deriving DecidableEq

/-- `impl Default for AppMemoryConfig` (config.rs lines 20–27):
`min: 64 * 65536, max: 256 * 65536`. -/
def AppMemoryConfig.default : AppMemoryConfig :=
  { min := 64 * 65536, max := 256 * 65536 }

/-! ## Response (`src/glue/response.rs`)

Headers and cookies are association lists; the hyper `ChunkReceiver` and
`StreamProvider` are abstract handles (only identity matters). -/

structure Response where
  body : List Nat
  file : Option String
  status : Nat
  headers : List (String × String)
  cookies : List (String × String)
  stream_rx : Option Nat
deriving DecidableEq

/-- `Response::new` (response.rs lines 27–37). -/
def Response.new : Response :=
  { body := [], file := none, status := 200, headers := [], cookies := [],
    stream_rx := none }

/-- `Response::set_status` (response.rs lines 112–114). -/
def Response.set_status (r : Response) (status : Nat) : Response :=
  { r with status := status }

/-- `Response::set_body` (response.rs lines 104–106). -/
def Response.set_body (r : Response) (data : List Nat) : Response :=
  { r with body := data }

/-- `Response::stream` (response.rs lines 116–125): `panic!` when a chunk
receiver is already installed; otherwise create a provider/receiver pair
(abstract fresh handles supplied by the caller), install the receiver and
return the provider. -/
def Response.stream (r : Response) (freshRx freshProvider : Nat) :
    Except String (Nat × Response) :=
  if r.stream_rx.isSome then
    .error "streaming already enabled for this response"
  else
    .ok (freshProvider, { r with stream_rx := some freshRx })

/-- `hyper::StatusCode::try_from(u16)` of the external hyper collaborator.
Modelled from the spec: a status value is a recognized HTTP status code iff
it lies in the valid code range 100–599. -/
def hyperStatusTryFrom (n : Nat) : Option Nat :=
  if 100 ≤ n ∧ n < 600 then some n else none

/-- The status with which `Response::into_hyper_response` materializes the
hyper reply (response.rs lines 56–59): `try_from(self.status)`, falling
back to `InternalServerError` (500) when unrecognized. -/
def materializedStatus (r : Response) : Nat :=
  match hyperStatusTryFrom r.status with
  | some v => v
  | none => 500

/-! ## Request (`src/glue/request.rs`)

A header's raw value is a list of lines, each a byte sequence; cookies are
pre-converted `CString`s keyed by name; the session is an optional string
map.  A returned `none` models the null pointer. -/

structure Request where
  headers : List (String × List (List Nat))
  cookies : List (String × String)
  session : Option (List (String × String))
  cacheHeaders : List (String × List Nat)
  cacheSessionItems : List (String × String)
deriving DecidableEq

/-- Association-list lookup (the `HashMap`/`Headers` lookups). -/
def lookupAssoc {α : Type} (l : List (String × α)) (k : String) : Option α :=
  match l.find? (fun p => p.1 == k) with
  | some p => some p.2
  | none => none

/-- `hyper::header::Raw::one` of the external hyper collaborator: the raw
value viewed as a single line, `None` when it has zero or several lines. -/
def rawOne (raw : List (List Nat)) : Option (List Nat) :=
  match raw with
  | [v] => some v
  | _ => none

/-- Is `b` a UTF-8 continuation byte (`0x80 ..= 0xBF`)? -/
def utf8Cont (b : Nat) : Bool :=
  0x80 ≤ b && b ≤ 0xBF

/-- `std::str::from_utf8` validity (RFC 3629, as enforced by Rust std):
leading-byte ranges with the `E0`/`ED`/`F0`/`F4` special second-byte
windows excluding overlong encodings and surrogates. -/
def validUtf8 : List Nat → Bool
  | [] => true
  | b :: rest =>
    if b ≤ 0x7F then
      validUtf8 rest
    else if b < 0xC2 then
      false
    else if b ≤ 0xDF then
      match rest with
      | c1 :: r => utf8Cont c1 && validUtf8 r
      | [] => false
    else if b ≤ 0xEF then
      match rest with
      | c1 :: c2 :: r =>
        (if b = 0xE0 then 0xA0 ≤ c1 && c1 ≤ 0xBF
         else if b = 0xED then 0x80 ≤ c1 && c1 ≤ 0x9F
         else utf8Cont c1) && utf8Cont c2 && validUtf8 r
      | _ => false
    else if b ≤ 0xF4 then
      match rest with
      | c1 :: c2 :: c3 :: r =>
        (if b = 0xF0 then 0x90 ≤ c1 && c1 ≤ 0xBF
         else if b = 0xF4 then 0x80 ≤ c1 && c1 ≤ 0x8F
         else utf8Cont c1) && utf8Cont c2 && utf8Cont c3 && validUtf8 r
      | _ => false
    else
      false

/-- `ice_glue_request_get_header` (request.rs lines 98–121): look the name
up in the headers, view the raw value as one line, require valid UTF-8;
on success cache the `CString` and return a pointer to it, otherwise return
null.  The returned bytes are modelled as the line itself. -/
def iceGlueRequestGetHeader (req : Request) (k : String) :
    Option (List Nat) × Request :=
  let ret :=
    match lookupAssoc req.headers k with
    | some raw =>
      match rawOne raw with
      | some v => if validUtf8 v then some v else none
      | none => none
    | none => none
  match ret with
  | some v => (some v, { req with cacheHeaders := (k, v) :: req.cacheHeaders })
  | none => (none, req)

/-- `ice_glue_request_get_cookie` (request.rs lines 124–134): pointer to the
stored `CString`, or null when the cookie is absent. -/
def iceGlueRequestGetCookie (req : Request) (k : String) : Option String :=
  match lookupAssoc req.cookies k with
  | some v => some v
  | none => none

/-- `ice_glue_request_get_session_item` (request.rs lines 137–167): when a
session is attached and holds the key, cache and return the value;
otherwise return null. -/
def iceGlueRequestGetSessionItem (req : Request) (k : String) :
    Option String × Request :=
  let v :=
    match req.session with
    | some data => lookupAssoc data k
    | none => none
  match v with
  | some v =>
    (some v, { req with cacheSessionItems := (k, v) :: req.cacheSessionItems })
  | none => (none, req)

/-! ## Helper lemmas about slabs -/

/-- The key returned by `slabInsert` addresses the inserted value. -/
theorem slabGet_slabInsert {α : Type} (l : Slab α) (v : α) :
    slabGet (slabInsert l v).1 (slabInsert l v).2 = some v := by
  induction l with
  | nil => rfl
  | cons hd tl ih =>
    cases hd with
    | none => rfl
    | some x => simpa [slabInsert, slabGet] using ih

/-- Overwriting a key that is in range (it currently resolves to a value)
makes the slab resolve that key to the new slot content. -/
theorem slabGet_set {α : Type} {l : Slab α} {i : Nat} {a : α}
    (h : slabGet l i = some a) (b : Option α) : slabGet (l.set i b) i = b := by
  unfold slabGet at h ⊢
  have hi : i < l.length := by
    by_contra hle
    rw [List.get?_eq_none.mpr (Nat.le_of_not_lt hle)] at h
    simp at h
  rw [List.get?_eq_getElem?, List.getElem?_set_self', ← List.get?_eq_getElem?]
  cases hb : List.get? l i with
  | none => rw [hb] at h; simp at h
  | some x => simp

/-! ## Claims -/

/-- C1 (counterexample): the claim says a pending completion that observes
the weak application upgrade as failed is *silently dropped*.  At the
concrete input — an accept completion arriving after teardown
(`appAlive = false`) — the completion is not dropped: the `unwrap` on the
dead weak reference panics. -/
theorem c1_counterexample :
    (tcpAcceptComplete ⟨[], []⟩ false ⟨1, 2⟩ ⟨0⟩).2 ≠ Effect.dropped ∧
    (tcpAcceptComplete ⟨[], []⟩ false ⟨1, 2⟩ ⟨0⟩).2 =
      Effect.fatal "unwrap on dead weak app reference" := by
  exact ⟨by decide, rfl⟩

/-- C1 (amended): after the application is torn down, every pending
asynchronous completion (TCP accept, read completion — successful or
failed — and write completion) observes the weak application upgrade as
failed and panics on the `unwrap` of the dead reference, rather than
silently dropping; the guest is never re-entered after teardown (no
completion produces a callback invocation). -/
theorem c1_teardown_never_reenters_guest (st : TcpState) (pa : PendingAccept)
    (s : TcpStream) (pr : PendingRead) (pw : PendingWrite)
    (rres : Except String (TcpStream × List Nat))
    (wres : Except String TcpStream) :
    ((tcpAcceptComplete st false pa s).2.isInvoke = false ∧
     (tcpAcceptComplete st false pa s).2.isFatal = true) ∧
    ((tcpReadComplete st pr false rres).2.isInvoke = false ∧
     (tcpReadComplete st pr false rres).2.isFatal = true) ∧
    ((tcpWriteComplete st pw false wres).2.isInvoke = false ∧
     (tcpWriteComplete st pw false wres).2.isFatal = true) := by
  refine ⟨⟨rfl, rfl⟩, ?_, ?_⟩
  · cases rres with
    | ok v =>
      obtain ⟨stream, data⟩ := v
      cases hg : slabGet st.streams pr.stream_id <;>
        simp [tcpReadComplete, hg, Effect.isInvoke, Effect.isFatal]
    | error e => simp [tcpReadComplete, Effect.isInvoke, Effect.isFatal]
  · cases wres with
    | ok stream =>
      cases hg : slabGet st.streams pw.stream_id <;>
        simp [tcpWriteComplete, hg, Effect.isInvoke, Effect.isFatal]
    | error e => simp [tcpWriteComplete, Effect.isInvoke, Effect.isFatal]

/-- C2: `take_buffer(buffer_id, dst_ptr, max_len)` on an occupied buffer
slot: when `max_len` is at least the buffer's length (and the destination
range lies inside guest memory, the memory-bridge precondition every
operation carries), the bytes are copied into guest memory at `dst_ptr`,
the buffer slot is removed, and the byte count is returned; when `max_len`
is less than the buffer's length, the call is a fatal guest error (the
`panic!` in tcp.rs line 102). -/
theorem c2_take_buffer (st : TcpState) (mem : List Nat)
    (buffer_id target_ptr max_len : Nat) (buf : List Nat)
    (hocc : slabGet st.buffers buffer_id = some buf) :
    (buf.length ≤ max_len → target_ptr + buf.length ≤ mem.length →
      takeBuffer st mem buffer_id target_ptr max_len =
        .ok (⟨st.streams, st.buffers.set buffer_id none⟩,
             mem.take target_ptr ++ buf ++ mem.drop (target_ptr + buf.length),
             Int.ofNat buf.length) ∧
      slabGet (st.buffers.set buffer_id none) buffer_id = none) ∧
    (max_len < buf.length →
      takeBuffer st mem buffer_id target_ptr max_len =
        .error "take_buffer: buf.len() > max_len") := by
  constructor
  · intro hlen hrange
    constructor
    · simp [takeBuffer, slabRemove, hocc, writeBytes, hrange,
            Nat.not_lt.mpr hlen]
    · exact slabGet_set hocc none
  · intro hlt
    simp [takeBuffer, slabRemove, hocc, hlt]

/-- C2 (witness): on the slab holding buffer `[7, 8]` at key 0 and guest
memory `[0, 0, 0]`, `take_buffer 0 1 2` copies the bytes to offset 1 and
returns 2, removing the slot, while `take_buffer 0 1 1` is fatal. -/
theorem c2_take_buffer_witness :
    (takeBuffer ⟨[], [some [7, 8]]⟩ [0, 0, 0] 0 1 2 =
       .ok (⟨[], [none]⟩, [0, 7, 8], Int.ofNat 2) ∧
     slabGet ([some [7, 8]].set 0 none) 0 = (none : Option (List Nat))) ∧
    takeBuffer ⟨[], [some [7, 8]]⟩ [0, 0, 0] 0 1 1 =
      .error "take_buffer: buf.len() > max_len" := by
  exact ⟨(c2_take_buffer ⟨[], [some [7, 8]]⟩ [0, 0, 0] 0 1 2 [7, 8]
            (by decide)).1 (by decide) (by decide),
         (c2_take_buffer ⟨[], [some [7, 8]]⟩ [0, 0, 0] 0 1 1 [7, 8]
            (by decide)).2 (by decide)⟩

/-- C3: for tcp `read` and `write`, the stream is removed from its slot for
the duration of the I/O (the slot is left occupied-but-empty, preventing
concurrent use); on successful completion the stream is re-installed in its
slot — `read` additionally inserts a new buffer slot whose id is passed to
the callback, `write` passes the byte count; on I/O error `-1` is delivered
to the callback (the stream was consumed by the failed future, so
re-installation is not possible and the slot is left unchanged). -/
theorem c3_read_write_discipline (st : TcpState) (mem : List Nat)
    (sid rlen bptr blen : Nat) (ct cd : Int) (conn : TcpStream)
    (data : List Nat)
    (hocc : slabGet st.streams sid = some (some conn))
    (hmem : readBytes mem bptr blen = some data) :
    (tcpRead st sid rlen ct cd =
       .ok (⟨st.streams.set sid (some none), st.buffers⟩, 0,
            ⟨conn, rlen, sid, ct, cd⟩) ∧
     slabGet (st.streams.set sid (some none)) sid = some none) ∧
    (∀ (st₂ : TcpState) (stream : TcpStream) (d : List Nat)
       (x : Option TcpStream),
       slabGet st₂.streams sid = some x →
       tcpReadComplete st₂ ⟨conn, rlen, sid, ct, cd⟩ true (.ok (stream, d)) =
         (⟨st₂.streams.set sid (some (some stream)),
           (slabInsert st₂.buffers d).1⟩,
          .invoke ct cd (Int.ofNat (slabInsert st₂.buffers d).2)) ∧
       slabGet (st₂.streams.set sid (some (some stream))) sid =
         some (some stream) ∧
       slabGet (slabInsert st₂.buffers d).1 (slabInsert st₂.buffers d).2 =
         some d) ∧
    (∀ (st₂ : TcpState) (e : String),
       tcpReadComplete st₂ ⟨conn, rlen, sid, ct, cd⟩ true (.error e) =
         (st₂, .invoke ct cd (-1))) ∧
    (tcpWrite st mem sid bptr blen ct cd =
       .ok (⟨st.streams.set sid (some none), st.buffers⟩, 0,
            ⟨conn, data, sid, ct, cd⟩)) ∧
    (∀ (st₂ : TcpState) (stream : TcpStream) (x : Option TcpStream),
       slabGet st₂.streams sid = some x →
       tcpWriteComplete st₂ ⟨conn, data, sid, ct, cd⟩ true (.ok stream) =
         (⟨st₂.streams.set sid (some (some stream)), st₂.buffers⟩,
          .invoke ct cd (Int.ofNat data.length))) ∧
    (∀ (st₂ : TcpState) (e : String),
       tcpWriteComplete st₂ ⟨conn, data, sid, ct, cd⟩ true (.error e) =
         (st₂, .invoke ct cd (-1))) := by
  refine ⟨⟨?_, slabGet_set hocc (some none)⟩, ?_, ?_, ?_, ?_, ?_⟩
  · simp [tcpRead, hocc]
  · intro st₂ stream d x hg
    refine ⟨?_, slabGet_set hg (some (some stream)), slabGet_slabInsert _ _⟩
    simp [tcpReadComplete, hg]
  · intro st₂ e
    simp [tcpReadComplete]
  · simp [tcpWrite, hmem, hocc]
  · intro st₂ stream x hg
    simp [tcpWriteComplete, hg]
  · intro st₂ e
    simp [tcpWriteComplete]

/-- C3 (witness): one stream `⟨5⟩` in slot 0 and guest memory `[9]`; the
read/write initiations reserve the slot, the successful completions
re-install the stream (the read delivering fresh buffer slot 0 holding
`[3]`, the write delivering byte count 1), and the failed completions
deliver `-1`. -/
theorem c3_read_write_discipline_witness :
    tcpRead ⟨[some (some ⟨5⟩)], []⟩ 0 4 1 2 =
      .ok (⟨[some none], []⟩, 0, ⟨⟨5⟩, 4, 0, 1, 2⟩) ∧
    tcpReadComplete ⟨[some none], []⟩ ⟨⟨5⟩, 4, 0, 1, 2⟩ true (.ok (⟨5⟩, [3])) =
      (⟨[some (some ⟨5⟩)], [some [3]]⟩, .invoke 1 2 (Int.ofNat 0)) ∧
    tcpReadComplete ⟨[some none], []⟩ ⟨⟨5⟩, 4, 0, 1, 2⟩ true (.error "e") =
      (⟨[some none], []⟩, .invoke 1 2 (-1)) ∧
    tcpWrite ⟨[some (some ⟨5⟩)], []⟩ [9] 0 0 1 1 2 =
      .ok (⟨[some none], []⟩, 0, ⟨⟨5⟩, [9], 0, 1, 2⟩) ∧
    tcpWriteComplete ⟨[some none], []⟩ ⟨⟨5⟩, [9], 0, 1, 2⟩ true (.ok ⟨5⟩) =
      (⟨[some (some ⟨5⟩)], []⟩, .invoke 1 2 (Int.ofNat 1)) ∧
    tcpWriteComplete ⟨[some none], []⟩ ⟨⟨5⟩, [9], 0, 1, 2⟩ true (.error "e") =
      (⟨[some none], []⟩, .invoke 1 2 (-1)) := by
  have h := c3_read_write_discipline ⟨[some (some ⟨5⟩)], []⟩ [9] 0 4 0 1 1 2
    ⟨5⟩ [9] (by decide) (by decide)
  exact ⟨h.1.1,
         (h.2.1 ⟨[some none], []⟩ ⟨5⟩ [3] none (by decide)).1,
         h.2.2.1 ⟨[some none], []⟩ "e",
         h.2.2.2.1,
         h.2.2.2.2.1 ⟨[some none], []⟩ ⟨5⟩ none (by decide),
         h.2.2.2.2.2 ⟨[some none], []⟩ "e"⟩

/-- C4: when the application's permission set does not contain
`TcpListen(addr)`, `listen(addr, cb_target, cb_data)` returns `-1`
synchronously, no socket is bound and no accept loop is spawned (so no
callback ever fires), and the call does not panic (the application remains
healthy). -/
theorem c4_listen_denied (env : NetEnv) (perms : List AppPermission)
    (addr : String) (ct cd : Int)
    (hdenied : checkPermission perms (.tcpListen addr) = false) :
    tcpListen env perms addr ct cd = .ret (-1) none := by
  simp [tcpListen, hdenied]

/-- C4 (witness): the empty permission set does not contain
`TcpListen("127.0.0.1:8080")`, and `listen` then returns `-1` with no
spawned accept loop. -/
theorem c4_listen_denied_witness :
    checkPermission [] (.tcpListen "127.0.0.1:8080") = false ∧
    tcpListen ⟨fun _ => none, fun _ => false⟩ [] "127.0.0.1:8080" 1 2 =
      .ret (-1) none :=
  ⟨by decide, c4_listen_denied ⟨fun _ => none, fun _ => false⟩ []
    "127.0.0.1:8080" 1 2 (by decide)⟩

/-- C5 (counterexample): the claim says every synchronous rejection cause —
including a bad argument such as an unparseable listen address — makes the
capability return `-1`.  At the concrete input (permission present, address
unparseable) `listen` does not return `-1`: the `addr.parse().unwrap()` of
tcp.rs line 59 panics, so the error escapes the capability. -/
theorem c5_counterexample :
    tcpListen ⟨fun _ => none, fun _ => false⟩
      [AppPermission.tcpListen "@not-an-address"] "@not-an-address" 1 2 =
      .fatal "addr parse failed" ∧
    tcpListen ⟨fun _ => none, fun _ => false⟩
      [AppPermission.tcpListen "@not-an-address"] "@not-an-address" 1 2 ≠
      .ret (-1) none := by
  exact ⟨rfl, by decide⟩

/-- C5 (amended): among the synchronous rejection causes, permission denial
returns `-1` to the guest with no callback; but a bad argument — an
unparseable or unbindable listen address — is not converted to `-1`: the
capability panics (`unwrap` on tcp.rs lines 59–60), so those errors escape
the capability instead of being returned as a failure code.  (The slab
tables grow on demand, so table saturation does not arise.) -/
theorem c5_sync_rejection (env : NetEnv) (perms : List AppPermission)
    (addr : String) (ct cd : Int) :
    (checkPermission perms (.tcpListen addr) = false →
       tcpListen env perms addr ct cd = .ret (-1) none) ∧
    (checkPermission perms (.tcpListen addr) = true →
       env.parseAddr addr = none →
       tcpListen env perms addr ct cd = .fatal "addr parse failed") ∧
    (∀ sa : Nat, checkPermission perms (.tcpListen addr) = true →
       env.parseAddr addr = some sa → env.bindOk sa = false →
       tcpListen env perms addr ct cd = .fatal "bind failed") := by
  refine ⟨fun hd => by simp [tcpListen, hd], fun hp hparse => ?_,
          fun sa hp hparse hbind => ?_⟩
  · simp [tcpListen, hp, hparse]
  · simp [tcpListen, hp, hparse, hbind]

/-- C5 (witness): a permission-denied call returns `-1`; with the permission
present, an unparseable address panics, and a parseable but unbindable
address panics. -/
theorem c5_sync_rejection_witness :
    tcpListen ⟨fun _ => none, fun _ => false⟩ [] "a" 1 2 = .ret (-1) none ∧
    tcpListen ⟨fun _ => none, fun _ => false⟩ [AppPermission.tcpListen "a"]
      "a" 1 2 = .fatal "addr parse failed" ∧
    tcpListen ⟨fun _ => some 0, fun _ => false⟩ [AppPermission.tcpListen "a"]
      "a" 1 2 = .fatal "bind failed" :=
  ⟨(c5_sync_rejection ⟨fun _ => none, fun _ => false⟩ [] "a" 1 2).1
     (by decide),
   (c5_sync_rejection ⟨fun _ => none, fun _ => false⟩
      [AppPermission.tcpListen "a"] "a" 1 2).2.1 (by decide) rfl,
   (c5_sync_rejection ⟨fun _ => some 0, fun _ => false⟩
      [AppPermission.tcpListen "a"] "a" 1 2).2.2 0 (by decide) rfl rfl⟩

/-- C6 (counterexample): the claim says a backend error reported for `get`
makes the returned future resolve as a failure and is never reported as a
successful absent value.  At the concrete input — the redis call failing
with "connection refused", so the worker delivers `OpResult::Error` — the
`get` future resolves *successfully* with the absent value `None`
(redis.rs lines 163–169 map a non-`Value` result to `None`), and `set`
resolves successfully with `()`. -/
theorem c6_counterexample :
    redisGet (.ok (workerExec (.error "connection refused"))) =
      .ok (none : Option String) ∧
    redisSet (.ok (workerExec (.error "connection refused"))) = .ok () := by
  exact ⟨rfl, rfl⟩

/-- C6 (amended): when the KV backend reports an error for
get/set/remove/hget/hset/hremove, the delivered `OpResult::Error` is
swallowed by the future pipeline: `get`/`hget` resolve successfully with
the absent value `None` and `set`/`remove`/`hset`/`hremove` resolve
successfully with `()` — the guest callback therefore observes absence or
success, not `-1`.  The future resolves as a failure only when the oneshot
reply channel is dropped before a reply (e.g. the worker crashed). -/
theorem c6_backend_error_swallowed (e ce : String) :
    redisGet (.ok (workerExec (.error e))) = .ok none ∧
    redisHget (.ok (workerExec (.error e))) = .ok none ∧
    redisSet (.ok (workerExec (.error e))) = .ok () ∧
    redisRemove (.ok (workerExec (.error e))) = .ok () ∧
    redisHset (.ok (workerExec (.error e))) = .ok () ∧
    redisHremove (.ok (workerExec (.error e))) = .ok () ∧
    redisGet (.error ce) = .error (.other ce) ∧
    redisSet (.error ce) = .error (.other ce) := by
  exact ⟨rfl, rfl, rfl, rfl, rfl, rfl, rfl, rfl⟩

/-- C7 (counterexample): the claim says `AppMemoryConfig::default()`
denotes `min = 64` and `max = 256` in units of pages; the actual default
fields are `64 * 65536` and `256 * 65536`, not `64` and `256`. -/
theorem c7_counterexample :
    ¬ (AppMemoryConfig.default.min = 64 ∧
       AppMemoryConfig.default.max = 256) := by
  decide

/-- C7 (amended): `AppMemoryConfig::default()` sets `min = 64 * 65536` and
`max = 256 * 65536` — byte counts equal to 64 and 256 pages of 65,536
bytes, rather than the page counts 64 and 256 themselves. -/
theorem c7_default_memory_bytes :
    AppMemoryConfig.default.min = 64 * 65536 ∧
    AppMemoryConfig.default.max = 256 * 65536 ∧
    AppMemoryConfig.default.min / 65536 = 64 ∧
    AppMemoryConfig.default.max / 65536 = 256 := by
  decide

/-- C8: at most one streaming body per response: on a response without an
installed chunk receiver, `stream` returns the writer (provider) handle and
installs the chunk receiver; any second `stream` call on the resulting
response is a fatal guest error (the `panic!` of response.rs line 118). -/
theorem c8_single_stream (r : Response) (rx1 p1 rx2 p2 : Nat)
    (hnone : r.stream_rx = none) :
    Response.stream r rx1 p1 = .ok (p1, { r with stream_rx := some rx1 }) ∧
    (∀ (p : Nat) (r' : Response), Response.stream r rx1 p1 = .ok (p, r') →
       Response.stream r' rx2 p2 =
         .error "streaming already enabled for this response") := by
  have h1 : Response.stream r rx1 p1 =
      .ok (p1, { r with stream_rx := some rx1 }) := by
    simp [Response.stream, hnone]
  refine ⟨h1, fun p r' h => ?_⟩
  rw [h1] at h
  obtain ⟨-, hr⟩ : p1 = p ∧ { r with stream_rx := some rx1 } = r' := by
    cases h; exact ⟨rfl, rfl⟩
  rw [← hr]
  simp [Response.stream]

/-- C8 (witness): on a fresh response, the first `stream` call installs
receiver 7 and returns provider 8; the second call is fatal. -/
theorem c8_single_stream_witness :
    Response.stream Response.new 7 8 =
      .ok (8, { Response.new with stream_rx := some 7 }) ∧
    Response.stream { Response.new with stream_rx := some 7 } 9 10 =
      .error "streaming already enabled for this response" :=
  ⟨(c8_single_stream Response.new 7 8 9 10 rfl).1,
   (c8_single_stream Response.new 7 8 9 10 rfl).2 8
     { Response.new with stream_rx := some 7 }
     (c8_single_stream Response.new 7 8 9 10 rfl).1⟩

/-- C9: `ice_glue_request_get_header`, `ice_glue_request_get_cookie` and
`ice_glue_request_get_session_item` return the null pointer when the
requested key is absent (for the session item: also when no session is
attached), and `get_header` additionally returns null when the header's
value is not valid UTF-8. -/
theorem c9_absent_lookups_null (req : Request) (k : String)
    (raw : List (List Nat)) (v : List Nat) :
    (lookupAssoc req.headers k = none →
       (iceGlueRequestGetHeader req k).1 = none) ∧
    (lookupAssoc req.headers k = some raw → rawOne raw = some v →
       validUtf8 v = false → (iceGlueRequestGetHeader req k).1 = none) ∧
    (lookupAssoc req.cookies k = none →
       iceGlueRequestGetCookie req k = none) ∧
    (req.session = none → (iceGlueRequestGetSessionItem req k).1 = none) ∧
    (∀ data : List (String × String), req.session = some data →
       lookupAssoc data k = none →
       (iceGlueRequestGetSessionItem req k).1 = none) := by
  refine ⟨fun h => ?_, fun h hone hutf => ?_, fun h => ?_, fun h => ?_,
          fun data h hk => ?_⟩
  · simp [iceGlueRequestGetHeader, h]
  · simp [iceGlueRequestGetHeader, h, hone, hutf]
  · simp [iceGlueRequestGetCookie, h]
  · simp [iceGlueRequestGetSessionItem, h]
  · simp [iceGlueRequestGetSessionItem, h, hk]

/-- C9 (witness): on a request whose only header is `"h"` with the
non-UTF-8 value `[0xFF]`, no cookies and no session, the lookups for the
absent key `"x"` return null, the header `"h"` returns null for invalid
UTF-8, and on a request with an empty session the absent session key
returns null. -/
theorem c9_absent_lookups_null_witness :
    (iceGlueRequestGetHeader ⟨[("h", [[255]])], [], none, [], []⟩ "x").1 =
      none ∧
    (iceGlueRequestGetHeader ⟨[("h", [[255]])], [], none, [], []⟩ "h").1 =
      none ∧
    iceGlueRequestGetCookie ⟨[("h", [[255]])], [], none, [], []⟩ "x" = none ∧
    (iceGlueRequestGetSessionItem ⟨[("h", [[255]])], [], none, [], []⟩
      "x").1 = none ∧
    (iceGlueRequestGetSessionItem ⟨[], [], some [], [], []⟩ "x").1 = none :=
  ⟨(c9_absent_lookups_null ⟨[("h", [[255]])], [], none, [], []⟩ "x" [] []).1
     (by decide),
   (c9_absent_lookups_null ⟨[("h", [[255]])], [], none, [], []⟩ "h"
      [[255]] [255]).2.1 (by decide) rfl (by decide),
   (c9_absent_lookups_null ⟨[("h", [[255]])], [], none, [], []⟩ "x" [] []
     ).2.2.1 (by decide),
   (c9_absent_lookups_null ⟨[("h", [[255]])], [], none, [], []⟩ "x" [] []
     ).2.2.2.1 rfl,
   (c9_absent_lookups_null ⟨[], [], some [], [], []⟩ "x" [] []).2.2.2.2 []
     rfl (by decide)⟩

/-- C10: a freshly created `Response` has status 200 and an empty body, and
after `set_status(s)` the materialized hyper reply carries status `s` when
`s` is a recognized HTTP status code (the valid range 100–599 of the hyper
collaborator's `StatusCode::try_from`) and status 500
(`InternalServerError`) otherwise. -/
theorem c10_status_materialization (s : Nat) :
    Response.new.status = 200 ∧ Response.new.body = [] ∧
    materializedStatus (Response.set_status Response.new s) =
      if 100 ≤ s ∧ s < 600 then s else 500 := by
  refine ⟨rfl, rfl, ?_⟩
  by_cases h : 100 ≤ s ∧ s < 600 <;>
    simp [materializedStatus, hyperStatusTryFrom, Response.set_status, h]

end IceCore
